import Mathlib

/-!
Shallow embedding of the sunSeat exposure-scoring pipeline
(src/core/scorer.py, src/core/routing.py, src/api/routes.py).

Python floats are modelled as real numbers; Python's float modulo
`a % m` is `pymod`; `round(x, n)` is `roundTo` (Mathlib's round, i.e.
round-half-up on reals; Python's float round differs only at exact
half-way points, which no statement below touches); `math.atan2(x, y)`
is the argument of the complex number y + x*i, which matches atan2's
piecewise definition including atan2(0, 0) = 0.
-/

namespace SunSeat

/-! ## Definitions: the embedded program -/

/-- Python float modulo: `a % m = a - m * floor (a / m)`. -/
noncomputable def pymod (a m : ℝ) : ℝ := a - m * ⌊a / m⌋

/-- `math.radians`. -/
noncomputable def radians (d : ℝ) : ℝ := d * Real.pi / 180

/-- `math.degrees`. -/
noncomputable def degrees (r : ℝ) : ℝ := r * 180 / Real.pi

/-- Python `round(x, n)`: round to `n` decimal places. -/
noncomputable def roundTo (n : ℕ) (x : ℝ) : ℝ := (round (x * 10 ^ n) : ℤ) / 10 ^ n

/-- `math.atan2 x y` (Python argument order: y-coordinate first is `x` in
the routing code's call `atan2(x, y)`); modelled as the complex argument
of `y + x*i`, the standard atan2 with `atan2 0 0 = 0`. -/
noncomputable def atan2 (x y : ℝ) : ℝ := Complex.arg ⟨y, x⟩

/-- The result of `get_sun_position` in src/core/solar.py: solar azimuth
(degrees clockwise from north) and elevation (degrees above horizon). -/
structure SolarPos where
  azimuth : ℝ
  elevation : ℝ

/-- A route segment dict as built by src/core/routing.py and consumed by
the scorer and the weather enricher. -/
structure Segment where
  lat : ℝ
  lng : ℝ
  timestamp_utc : ℝ
  heading_degrees : ℝ
  uv_index : ℝ
  cloud_cover_pct : ℝ

/-- The four seats, in the enumeration order of the `scores` dict of
`score_seats` (Python dict insertion order: FL, FR, RL, RR). -/
inductive Seat
  | FL
  | FR
  | RL
  | RR
deriving DecidableEq, Repr

/-- `_SEAT_FACING` in src/core/scorer.py: the window-facing angle of each
seat, clockwise from the vehicle's forward heading. -/
def SEAT_FACING : Seat → ℝ
  | .FL => 270
  | .FR => 90
  | .RL => 270
  | .RR => 90

/-- The seats in the iteration order of the `scores` dict. -/
def seatOrder : List Seat := [.FL, .FR, .RL, .RR]

/-- Position of a seat in the dict's iteration order. -/
def seatIdx : Seat → ℕ
  | .FL => 0
  | .FR => 1
  | .RL => 2
  | .RR => 3

/-- `_angular_diff` in src/core/scorer.py: shortest arc (0 to 180 degrees)
between two bearings. -/
noncomputable def angular_diff (a b : ℝ) : ℝ := |pymod (a - b + 180) 360 - 180|

/-- One iteration of the accumulation loop of `score_seats`
(src/core/scorer.py lines 57-75): given the current per-seat totals and a
segment, return the updated totals.  The solar provider
`get_sun_position` is a parameter `sun`. -/
noncomputable def score_step (sun : ℝ → ℝ → ℝ → SolarPos) (scores : Seat → ℝ)
    (seg : Segment) : Seat → ℝ :=
  let solar := sun seg.lat seg.lng seg.timestamp_utc
  if solar.elevation ≤ 0 then scores
  else
    let relative_angle := pymod (solar.azimuth - seg.heading_degrees) 360
    let weight := seg.uv_index * (1 - seg.cloud_cover_pct / 100)
    if weight ≤ 0 then scores
    else fun seat =>
      scores seat +
        max 0 (Real.cos (radians (angular_diff relative_angle (SEAT_FACING seat)))) * weight

/-- The accumulated (pre-rounding) per-seat totals of `score_seats` over a
segment list. -/
noncomputable def raw_scores (sun : ℝ → ℝ → ℝ → SolarPos) (segments : List Segment) :
    Seat → ℝ :=
  segments.foldl (score_step sun) fun _ => 0

/-- Python `min(scores, key=scores.get)` over the scores dict: scan the
keys in insertion order keeping the first key attaining the minimum. -/
noncomputable def argminSeat (f : Seat → ℝ) : Seat :=
  [Seat.FR, Seat.RL, Seat.RR].foldl (fun acc s => if f s < f acc then s else acc) Seat.FL

/-- Python `max(scores, key=scores.get)` over the scores dict: scan the
keys in insertion order keeping the first key attaining the maximum. -/
noncomputable def argmaxSeat (f : Seat → ℝ) : Seat :=
  [Seat.FR, Seat.RL, Seat.RR].foldl (fun acc s => if f acc < f s then s else acc) Seat.FL

/-- Drive side, `"LHD"` or `"RHD"`. -/
inductive DriveSide
  | LHD
  | RHD
deriving DecidableEq, Repr

/-- The dict returned by `score_seats`. -/
structure ScoreResult where
  FL : ℝ
  FR : ℝ
  RL : ℝ
  RR : ℝ
  best_seat : Seat
  worst_seat : Seat
  driver_seat : Seat

/-- `score_seats` in src/core/scorer.py: accumulate the per-seat totals
over the segments, then return the totals rounded to 4 decimals together
with best/worst/driver seats. -/
noncomputable def score_seats (sun : ℝ → ℝ → ℝ → SolarPos) (segments : List Segment)
    (drive_side : DriveSide) : ScoreResult :=
  let scores := raw_scores sun segments
  { FL := roundTo 4 (scores .FL)
    FR := roundTo 4 (scores .FR)
    RL := roundTo 4 (scores .RL)
    RR := roundTo 4 (scores .RR)
    best_seat := argminSeat scores
    worst_seat := argmaxSeat scores
    driver_seat := match drive_side with | .LHD => .FL | .RHD => .FR }

/-- A seat is the first (in the dict order FL, FR, RL, RR) to attain the
minimum of `f`: it attains the minimum, and any other seat attaining it
comes no earlier in the enumeration. -/
def isFirstMin (f : Seat → ℝ) (s : Seat) : Prop :=
  (∀ t, f s ≤ f t) ∧ ∀ t, f t ≤ f s → seatIdx s ≤ seatIdx t

/-- A seat is the first (in the dict order FL, FR, RL, RR) to attain the
maximum of `f`. -/
def isFirstMax (f : Seat → ℝ) (s : Seat) : Prop :=
  (∀ t, f t ≤ f s) ∧ ∀ t, f s ≤ f t → seatIdx s ≤ seatIdx t

/-- Replace a segment's uv_index by `c` times its value. -/
noncomputable def scaleUv (c : ℝ) (seg : Segment) : Segment :=
  { seg with uv_index := c * seg.uv_index }

/-- Replace a segment's cloud cover by the one whose complement
`1 - cloud_cover_pct/100` is `c` times the original complement. -/
noncomputable def scaleCloudComplement (c : ℝ) (seg : Segment) : Segment :=
  { seg with cloud_cover_pct := 100 * (1 - c * (1 - seg.cloud_cover_pct / 100)) }

/-- `_bearing` in src/core/routing.py: the forward azimuth from point 1
to point 2, `(degrees(atan2(x, y)) + 360) % 360`. -/
noncomputable def bearing (lat1 lng1 lat2 lng2 : ℝ) : ℝ :=
  let lat1_r := radians lat1
  let lat2_r := radians lat2
  let dlng_r := radians (lng2 - lng1)
  let x := Real.sin dlng_r * Real.cos lat2_r
  let y := Real.cos lat1_r * Real.sin lat2_r -
    Real.sin lat1_r * Real.cos lat2_r * Real.cos dlng_r
  pymod (degrees (atan2 x y) + 360) 360

/-- `_estimate_uv_from_time` in src/api/routes.py: a coarse UV estimate
from the UTC hour of the timestamp (the hour of
`datetime.fromtimestamp(ts, tz=utc)` is `⌊ts / 3600⌋ % 24`, Unix time
having no leap seconds). -/
noncomputable def estimate_uv_from_time (timestamp_utc : ℝ) : ℝ :=
  let hour : ℤ := ⌊timestamp_utc / 3600⌋ % 24
  if 6 ≤ hour ∧ hour ≤ 18 then
    roundTo 2 (max 0 (6 * Real.sin (Real.pi * ((hour : ℝ) - 6) / 12)))
  else 0

/-- The body of the per-segment loop of `_enrich_weather` in
src/api/routes.py: the solar lookup either succeeds (some) or raises
(none); the `except` branch substitutes the time-of-day estimate.  Both
branches copy the segment, reassigning uv_index and cloud_cover_pct. -/
noncomputable def enrich_segment (sunLookup : ℝ → ℝ → ℝ → Option SolarPos)
    (seg : Segment) : Segment :=
  match sunLookup seg.lat seg.lng seg.timestamp_utc with
  | some solar =>
    { seg with uv_index := max 0 (roundTo 2 (solar.elevation / 9)), cloud_cover_pct := 0 }
  | none =>
    { seg with uv_index := estimate_uv_from_time seg.timestamp_utc, cloud_cover_pct := 0 }

/-- `_enrich_weather` in src/api/routes.py: the loop appending the
enriched copy of each segment, i.e. a map over the list. -/
noncomputable def enrich_weather (sunLookup : ℝ → ℝ → ℝ → Option SolarPos)
    (segments : List Segment) : List Segment :=
  segments.map (enrich_segment sunLookup)

/-- The confidence tiers. -/
inductive Confidence
  | high
  | moderate
  | low
deriving DecidableEq, Repr

/-- `_compute_confidence` in src/api/routes.py: classify from the
enriched segments and the (rounded) score map. -/
noncomputable def compute_confidence (enriched : List Segment) (scores : Seat → ℝ) :
    Confidence :=
  if enriched.isEmpty then .low
  else
    let sunny := enriched.filter fun s => 0 < s.uv_index
    let sun_fraction := (sunny.length : ℝ) / enriched.length
    if sunny.isEmpty then .low
    else
      let avg_uv := (sunny.map Segment.uv_index).sum / sunny.length
      let worst := max (max (scores .FL) (scores .FR)) (max (scores .RL) (scores .RR))
      let best := min (min (scores .FL) (scores .FR)) (min (scores .RL) (scores .RR))
      let relative_spread := if 0 < worst then (worst - best) / worst else 0
      if 0.7 ≤ sun_fraction ∧ 4.0 ≤ avg_uv ∧ 0.3 ≤ relative_spread then .high
      else if 0.3 ≤ sun_fraction ∧ 1.5 ≤ avg_uv ∧ 0.1 ≤ relative_spread then .moderate
      else .low

/-- The confidence classification as the specification words it: `sunny`
the segments with uv_index > 0; low when there are none; otherwise
`sun_fraction` the fraction of sunny segments, `avg_uv` the mean uv over
the sunny ones, `relative_spread = (worst - best) / worst` when
`worst > 0` else 0, and the tiers evaluated top-down, first match
winning. -/
noncomputable def confidence_spec (enriched : List Segment) (scores : Seat → ℝ) :
    Confidence :=
  let sunny := enriched.filter fun s => 0 < s.uv_index
  if sunny.isEmpty then .low
  else
    let sun_fraction := (sunny.length : ℝ) / enriched.length
    let avg_uv := (sunny.map Segment.uv_index).sum / sunny.length
    let worst := max (max (scores .FL) (scores .FR)) (max (scores .RL) (scores .RR))
    let best := min (min (scores .FL) (scores .FR)) (min (scores .RL) (scores .RR))
    let relative_spread := if 0 < worst then (worst - best) / worst else 0
    if 0.7 ≤ sun_fraction ∧ 4.0 ≤ avg_uv ∧ 0.3 ≤ relative_spread then .high
    else if 0.3 ≤ sun_fraction ∧ 1.5 ≤ avg_uv ∧ 0.1 ≤ relative_spread then .moderate
    else .low

/-- The inner while-loop of `_decode_polyline`: read 5-bit chunks of one
coordinate, accumulating `result |= (b AND 0x1F) << shift` (the chunks
occupy disjoint bit ranges, so the bitwise or is addition), stopping when
`b < 0x20`; `none` when the string is exhausted mid-coordinate (Python
would raise IndexError). -/
def decodeVarint : List Char → ℕ → ℕ → Option (ℕ × List Char)
  | [], _, _ => none
  | c :: rest, shift, result =>
    let b : ℤ := (c.toNat : ℤ) - 63
    let result' := result + (Int.land b 31).toNat * 2 ^ shift
    if b < 32 then some (result', rest) else decodeVarint rest (shift + 5) result'

/-- The zigzag decoding of one coordinate delta:
`~(result >> 1) if result AND 1 else result >> 1` (Python `~x = -x - 1`). -/
def polyDelta (result : ℕ) : ℤ :=
  if result % 2 = 1 then -((result / 2 : ℕ) : ℤ) - 1 else ((result / 2 : ℕ) : ℤ)

/-- The outer while-loop of `_decode_polyline`: decode lat then lng
deltas, accumulate, and emit the scaled integer point.  The loop consumes
at least two characters per iteration, so fuel equal to the string length
never runs out; `none` only on truncated input. -/
def decodePoints : ℕ → List Char → ℤ → ℤ → Option (List (ℤ × ℤ))
  | _, [], _, _ => some []
  | 0, _ :: _, _, _ => none
  | fuel + 1, c :: rest0, lat, lng =>
    match decodeVarint (c :: rest0) 0 0 with
    | none => none
    | some (rlat, rest1) =>
      match decodeVarint rest1 0 0 with
      | none => none
      | some (rlng, rest2) =>
        let lat2 := lat + polyDelta rlat
        let lng2 := lng + polyDelta rlng
        match decodePoints fuel rest2 lat2 lng2 with
        | none => none
        | some pts => some ((lat2, lng2) :: pts)

/-- `_decode_polyline` in src/core/routing.py, up to the final division:
the accumulator values before the `/ 1e5` scaling (the segmenter divides
by 1e5 where it consumes the points). -/
def decode_polyline (encoded : String) : Option (List (ℤ × ℤ)) :=
  decodePoints encoded.length encoded.data 0 0

/-- A `lat`/`lng` pair of the Directions payload. -/
structure LatLng where
  lat : ℝ
  lng : ℝ

/-- One step of a Directions leg: `duration.value` in seconds, the
encoded polyline, and the explicit start/end locations. -/
structure StepData where
  duration : ℝ
  polyline : String
  start_location : LatLng
  end_location : LatLng

/-- One leg of the Directions route. -/
structure LegData where
  steps : List StepData

/-- `_make_segment` in src/core/routing.py. -/
def make_segment (lat lng timestamp_utc heading_degrees : ℝ) : Segment :=
  ⟨lat, lng, timestamp_utc, heading_degrees, 0, 0⟩

/-- The per-step body of the segment-building loop of
`get_route_segments` (src/core/routing.py lines 140-169): given the
departure timestamp and the elapsed seconds accumulated from earlier
steps, emit this step's segments and the updated elapsed value; `none`
when the polyline fails to decode. -/
noncomputable def step_segments (departure_ts elapsed : ℝ) (step : StepData) :
    Option (List Segment × ℝ) :=
  match decode_polyline step.polyline with
  | none => none
  | some rawPoints =>
    let points : List (ℝ × ℝ) :=
      rawPoints.map fun p => ((p.1 : ℝ) / 100000, (p.2 : ℝ) / 100000)
    if points.length < 2 then
      let pos := match points with
        | [] => (step.start_location.lat, step.start_location.lng)
        | p :: _ => p
      let heading := bearing step.start_location.lat step.start_location.lng
        step.end_location.lat step.end_location.lng
      some ([make_segment pos.1 pos.2 (departure_ts + elapsed) heading],
        elapsed + step.duration)
    else
      let time_per_sub := step.duration / ((points.length : ℝ) - 1)
      some ((points.zip points.tail).foldl
        (fun acc pq =>
          (acc.1 ++ [make_segment pq.1.1 pq.1.2 (departure_ts + acc.2)
            (bearing pq.1.1 pq.1.2 pq.2.1 pq.2.2)],
           acc.2 + time_per_sub))
        ([], elapsed))

/-- The loop of `get_route_segments` over all steps, threading the
segment list and the elapsed accumulator. -/
noncomputable def process_steps (departure_ts : ℝ) :
    List StepData → List Segment × ℝ → Option (List Segment × ℝ)
  | [], acc => some acc
  | step :: rest, acc =>
    match step_segments departure_ts acc.2 step with
    | none => none
    | some (newSegs, elapsed2) =>
      process_steps departure_ts rest (acc.1 ++ newSegs, elapsed2)

/-- The error a route fetch surfaces to the caller: `ValueError` (no API
key, or a non-OK Directions status) or `httpx.HTTPStatusError` (a failed
HTTP response, raised by `response.raise_for_status()`). -/
inductive RouteError
  | valueError (msg : String)
  | httpStatusError (code : ℕ)
deriving DecidableEq, Repr

/-- The decoded Directions response body consumed by
`get_route_segments`: `status`, the optional `error_message`, and
`routes[0].legs`. -/
structure DirectionsData where
  status : String
  error_message : Option String
  legs : List LegData

/-- The outcome of the HTTP exchange with the Directions API: either a
non-success HTTP response (on which `raise_for_status()` raises
`httpx.HTTPStatusError`) or a decoded JSON payload. -/
inductive HttpResponse
  | httpFailure (code : ℕ)
  | success (data : DirectionsData)

/-- `get_route_segments` (src/core/routing.py lines 124-171) after the
HTTP exchange: raise `httpx.HTTPStatusError` for a failed response; raise
`ValueError` carrying the Directions `status` and `error_message` when
`status != "OK"`; otherwise build the segments (the inner Option is the
polyline-decoding failure, which Python surfaces as an uncaught
IndexError). -/
noncomputable def get_route_segments (departure_ts : ℝ) (response : HttpResponse) :
    Except RouteError (Option (List Segment)) :=
  match response with
  | .httpFailure code => .error (.httpStatusError code)
  | .success data =>
    if data.status = "OK" then
      .ok ((process_steps departure_ts ((data.legs.map LegData.steps).flatten)
        ([], 0)).map Prod.fst)
    else
      .error (.valueError ("Directions API error: " ++ data.status ++ " — " ++
        data.error_message.getD "no details"))

/-- The `except` clauses of `recommend` in src/api/routes.py (lines
225-233): a `ValueError` from routing becomes HTTP 400, an
`httpx.HTTPStatusError` becomes HTTP 502. -/
def error_to_http_status : RouteError → ℕ
  | .valueError _ => 400
  | .httpStatusError _ => 502

/-! ## Helper lemmas -/

theorem pymod_nonneg (a m : ℝ) (hm : 0 < m) : 0 ≤ pymod a m := by
  have h := Int.floor_le (a / m)
  have h2 : (⌊a / m⌋ : ℝ) * m ≤ a := (le_div_iff₀ hm).mp h
  unfold pymod
  nlinarith

theorem pymod_lt (a m : ℝ) (hm : 0 < m) : pymod a m < m := by
  have h := Int.lt_floor_add_one (a / m)
  have h2 : a < ((⌊a / m⌋ : ℝ) + 1) * m := (div_lt_iff₀ hm).mp h
  unfold pymod
  nlinarith

theorem pymod_eq (a m : ℝ) (k : ℤ) (hm : 0 < m) (h1 : (k : ℝ) * m ≤ a)
    (h2 : a < ((k : ℝ) + 1) * m) : pymod a m = a - m * k := by
  have hk : ⌊a / m⌋ = k := by
    rw [Int.floor_eq_iff]
    exact ⟨(le_div_iff₀ hm).mpr h1, by rw [div_lt_iff₀ hm]; linarith⟩
  unfold pymod
  rw [hk]

theorem argminSeat_spec (f : Seat → ℝ) : isFirstMin f (argminSeat f) := by
  simp only [argminSeat, List.foldl, isFirstMin]
  split_ifs with h1 h2 h3 h4 h5 h6 h7 <;> (try push_neg at *) <;>
    refine ⟨fun t => ?_, fun t hle => ?_⟩ <;> cases t <;>
    first
      | linarith
      | (simp only [seatIdx]; omega)

theorem argmaxSeat_spec (f : Seat → ℝ) : isFirstMax f (argmaxSeat f) := by
  simp only [argmaxSeat, List.foldl, isFirstMax]
  split_ifs with h1 h2 h3 h4 h5 h6 h7 <;> (try push_neg at *) <;>
    refine ⟨fun t => ?_, fun t hle => ?_⟩ <;> cases t <;>
    first
      | linarith
      | (simp only [seatIdx]; omega)

theorem score_step_weight_scale (sun : ℝ → ℝ → ℝ → SolarPos) (c : ℝ) (hc : 0 ≤ c)
    (f : Seat → ℝ) (seg seg' : Segment)
    (hlat : seg'.lat = seg.lat) (hlng : seg'.lng = seg.lng)
    (hts : seg'.timestamp_utc = seg.timestamp_utc)
    (hhead : seg'.heading_degrees = seg.heading_degrees)
    (hw : seg'.uv_index * (1 - seg'.cloud_cover_pct / 100) =
      c * (seg.uv_index * (1 - seg.cloud_cover_pct / 100))) :
    score_step sun (fun t => c * f t) seg' = fun t => c * score_step sun f seg t := by
  simp only [score_step, hlat, hlng, hts, hhead, hw]
  by_cases helev : (sun seg.lat seg.lng seg.timestamp_utc).elevation ≤ 0
  · simp [helev]
  · simp only [if_neg helev]
    by_cases hwle : seg.uv_index * (1 - seg.cloud_cover_pct / 100) ≤ 0
    · simp only
        [if_pos (show c * (seg.uv_index * (1 - seg.cloud_cover_pct / 100)) ≤ 0 by nlinarith),
        if_pos hwle]
    · rcases eq_or_lt_of_le hc with hc0 | hcpos
      · simp only [← hc0,
          if_pos (show (0 : ℝ) * (seg.uv_index * (1 - seg.cloud_cover_pct / 100)) ≤ 0 by simp),
          if_neg hwle]
        funext t
        ring
      · push_neg at hwle
        simp only
          [if_neg (not_le.mpr
            (show 0 < c * (seg.uv_index * (1 - seg.cloud_cover_pct / 100)) by nlinarith)),
          if_neg (not_le.mpr hwle)]
        funext t
        ring

theorem foldl_score_scale (sun : ℝ → ℝ → ℝ → SolarPos) (c : ℝ) (hc : 0 ≤ c)
    (g : Segment → Segment)
    (hg : ∀ seg : Segment, (g seg).lat = seg.lat ∧ (g seg).lng = seg.lng ∧
      (g seg).timestamp_utc = seg.timestamp_utc ∧
      (g seg).heading_degrees = seg.heading_degrees ∧
      (g seg).uv_index * (1 - (g seg).cloud_cover_pct / 100) =
        c * (seg.uv_index * (1 - seg.cloud_cover_pct / 100)))
    (segments : List Segment) :
    ∀ f : Seat → ℝ,
      (segments.map g).foldl (score_step sun) (fun t => c * f t) =
        fun t => c * segments.foldl (score_step sun) f t := by
  induction segments with
  | nil => intro f; rfl
  | cons a l ih =>
    intro f
    obtain ⟨h1, h2, h3, h4, h5⟩ := hg a
    simp only [List.map_cons, List.foldl_cons]
    rw [score_step_weight_scale sun c hc f a (g a) h1 h2 h3 h4 h5]
    exact ih _

/-- Every branch of the enrichment loop body copies the segment and
reassigns only uv_index and cloud_cover_pct. -/
theorem enrich_segment_preserves (sunLookup : ℝ → ℝ → ℝ → Option SolarPos)
    (seg : Segment) :
    (enrich_segment sunLookup seg).lat = seg.lat ∧
    (enrich_segment sunLookup seg).lng = seg.lng ∧
    (enrich_segment sunLookup seg).timestamp_utc = seg.timestamp_utc ∧
    (enrich_segment sunLookup seg).heading_degrees = seg.heading_degrees := by
  cases h : sunLookup seg.lat seg.lng seg.timestamp_utc <;>
    simp [enrich_segment, h]

/-- Characterization of the segment-emitting fold of `step_segments`:
starting from accumulator `(acc, e0)`, the fold appends one segment per
consecutive point pair, the k-th (counting from the enumFrom offset `n`)
with timestamp `departure_ts + e0 + (k - n) * time_per_sub`, and advances
the elapsed value by `time_per_sub` per pair. -/
theorem step_foldl_emit (departure_ts time_per_sub : ℝ)
    (prs : List ((ℝ × ℝ) × ℝ × ℝ)) :
    ∀ (n : ℕ) (acc : List Segment) (e0 : ℝ),
      prs.foldl
        (fun acc2 pq =>
          (acc2.1 ++ [make_segment pq.1.1 pq.1.2 (departure_ts + acc2.2)
            (bearing pq.1.1 pq.1.2 pq.2.1 pq.2.2)],
           acc2.2 + time_per_sub))
        (acc, e0) =
      (acc ++ (prs.enumFrom n).map (fun ipq =>
        make_segment ipq.2.1.1 ipq.2.1.2
          (departure_ts + e0 + (((ipq.1 : ℕ) : ℝ) - (n : ℝ)) * time_per_sub)
          (bearing ipq.2.1.1 ipq.2.1.2 ipq.2.2.1 ipq.2.2.2)),
       e0 + prs.length * time_per_sub) := by
  induction prs with
  | nil =>
    intro n acc e0
    simp
  | cons p ps ih =>
    intro n acc e0
    simp only [List.foldl_cons, List.enumFrom_cons, List.map_cons, List.length_cons]
    rw [ih (n + 1)
      (acc ++ [make_segment p.1.1 p.1.2 (departure_ts + e0)
        (bearing p.1.1 p.1.2 p.2.1 p.2.2)]) (e0 + time_per_sub)]
    have hhead : make_segment p.1.1 p.1.2 (departure_ts + e0)
        (bearing p.1.1 p.1.2 p.2.1 p.2.2) =
      make_segment p.1.1 p.1.2
        (departure_ts + e0 + (((n : ℕ) : ℝ) - (n : ℝ)) * time_per_sub)
        (bearing p.1.1 p.1.2 p.2.1 p.2.2) := by
      have : departure_ts + e0 =
          departure_ts + e0 + (((n : ℕ) : ℝ) - (n : ℝ)) * time_per_sub := by
        ring
      rw [← this]
    have htail : (ps.enumFrom (n + 1)).map (fun ipq =>
        make_segment ipq.2.1.1 ipq.2.1.2
          (departure_ts + (e0 + time_per_sub) +
            (((ipq.1 : ℕ) : ℝ) - ((n + 1 : ℕ) : ℝ)) * time_per_sub)
          (bearing ipq.2.1.1 ipq.2.1.2 ipq.2.2.1 ipq.2.2.2)) =
      (ps.enumFrom (n + 1)).map (fun ipq =>
        make_segment ipq.2.1.1 ipq.2.1.2
          (departure_ts + e0 + (((ipq.1 : ℕ) : ℝ) - (n : ℝ)) * time_per_sub)
          (bearing ipq.2.1.1 ipq.2.1.2 ipq.2.2.1 ipq.2.2.2)) := by
      apply List.map_congr_left
      intro x _
      have : departure_ts + (e0 + time_per_sub) +
          (((x.1 : ℕ) : ℝ) - ((n + 1 : ℕ) : ℝ)) * time_per_sub =
        departure_ts + e0 + (((x.1 : ℕ) : ℝ) - (n : ℝ)) * time_per_sub := by
        push_cast
        ring
      rw [this]
    rw [htail, List.append_assoc, List.singleton_append, hhead]
    refine congrArg _ ?_
    push_cast
    ring

/-! ## Claim theorems -/

/-- C1: for every route segment whose solar elevation is > 0 and whose
weight `uv_index * (1 - cloud_cover_pct/100)` is > 0, the scorer's
accumulation step adds to each seat exactly
`max(0, cos(diff in radians)) * weight`, where
`diff = |((relative_angle - facing + 180) mod 360) - 180|`,
`relative_angle = (azimuth - heading_degrees) mod 360`, and the facing
angle is 270 for seats FL and RL and 90 for seats FR and RR. -/
theorem C1_per_segment_exposure (sun : ℝ → ℝ → ℝ → SolarPos) (scores : Seat → ℝ)
    (seg : Segment) (seat : Seat)
    (helev : 0 < (sun seg.lat seg.lng seg.timestamp_utc).elevation)
    (hw : 0 < seg.uv_index * (1 - seg.cloud_cover_pct / 100)) :
    score_step sun scores seg seat =
      scores seat +
        max 0 (Real.cos (radians
          (|pymod
              (pymod ((sun seg.lat seg.lng seg.timestamp_utc).azimuth - seg.heading_degrees) 360
                - (match seat with | .FL => 270 | .RL => 270 | .FR => 90 | .RR => 90) + 180) 360
            - 180|))) *
        (seg.uv_index * (1 - seg.cloud_cover_pct / 100)) := by
  cases seat <;>
    simp only [score_step, angular_diff, SEAT_FACING,
      if_neg (not_le.mpr helev), if_neg (not_le.mpr hw)]

/-- Witness for C1: sun at azimuth 90, elevation 45, a segment heading
north with uv 5 and no cloud, seat FR. -/
theorem C1_witness :
    score_step (fun _ _ _ => ⟨90, 45⟩) (fun _ => 0) ⟨0, 0, 0, 0, 5, 0⟩ Seat.FR =
      0 + max 0 (Real.cos (radians
          (|pymod (pymod ((90 : ℝ) - 0) 360 - 90 + 180) 360 - 180|))) *
        (5 * (1 - 0 / 100)) :=
  C1_per_segment_exposure _ _ _ _ (show (0 : ℝ) < 45 by norm_num)
    (show (0 : ℝ) < 5 * (1 - 0 / 100) by norm_num)

/-- C3: a segment whose solar elevation is ≤ 0 leaves every seat's running
total unchanged (it contributes exactly zero to every seat), regardless of
azimuth, heading, uv_index or cloud cover. -/
theorem C3_horizon_cutoff (sun : ℝ → ℝ → ℝ → SolarPos) (scores : Seat → ℝ)
    (seg : Segment)
    (helev : (sun seg.lat seg.lng seg.timestamp_utc).elevation ≤ 0) :
    score_step sun scores seg = scores := by
  simp only [score_step, if_pos helev]

/-- Witness for C3: sun below the horizon (elevation -5) with arbitrary
azimuth, heading, uv and cloud values. -/
theorem C3_witness :
    score_step (fun _ _ _ => ⟨180, -5⟩) (fun _ => 0) ⟨10, 20, 30, 40, 5, 0⟩ =
      fun _ => 0 :=
  C3_horizon_cutoff _ _ _ (show (-5 : ℝ) ≤ 0 by norm_num)

/-- C2: for every segment list and drive side, `score_seats` selects
`best_seat` as the first seat (in the order FL, FR, RL, RR) attaining the
minimum accumulated total and `worst_seat` as the first seat attaining the
maximum accumulated total; and on the empty segment list it returns all
four scores equal to 0 with `best_seat = FL` and `worst_seat = FL`.  The
model is a total function, so no error is possible. -/
theorem C2_best_worst_selection (sun : ℝ → ℝ → ℝ → SolarPos) (segments : List Segment)
    (drive_side : DriveSide) :
    isFirstMin (raw_scores sun segments) (score_seats sun segments drive_side).best_seat ∧
    isFirstMax (raw_scores sun segments) (score_seats sun segments drive_side).worst_seat ∧
    (score_seats sun [] drive_side).FL = 0 ∧
    (score_seats sun [] drive_side).FR = 0 ∧
    (score_seats sun [] drive_side).RL = 0 ∧
    (score_seats sun [] drive_side).RR = 0 ∧
    (score_seats sun [] drive_side).best_seat = Seat.FL ∧
    (score_seats sun [] drive_side).worst_seat = Seat.FL := by
  have hraw : raw_scores sun [] = fun _ => 0 := rfl
  refine ⟨argminSeat_spec _, argmaxSeat_spec _, ?_, ?_, ?_, ?_, ?_, ?_⟩ <;>
    simp [score_seats, hraw, roundTo, argminSeat, argmaxSeat]

/-- Counterexample to C8 as stated: the scorer's returned scores are the
accumulated totals rounded to 4 decimal places, and rounding does not
commute with doubling.  With the sun abeam at azimuth 90 and a single
north-heading cloud-free segment of uv_index 0.00013, seat FR's returned
score is 0.0001, while doubling the uv_index yields 0.0003 ≠ 0.0002. -/
theorem C8_counterexample :
    (score_seats (fun _ _ _ => ⟨90, 45⟩)
        ([⟨0, 0, 0, 0, 13 / 100000, 0⟩].map (scaleUv 2)) .LHD).FR ≠
      2 * (score_seats (fun _ _ _ => ⟨90, 45⟩) [⟨0, 0, 0, 0, 13 / 100000, 0⟩] .LHD).FR := by
  have hmod90 : pymod ((90 : ℝ) - 0) 360 = 90 := by
    rw [pymod_eq _ _ 0 (by norm_num) (by norm_num) (by norm_num)]; norm_num
  have hdiff : angular_diff (90 : ℝ) 90 = 0 := by
    unfold angular_diff
    rw [pymod_eq _ _ 0 (by norm_num) (by norm_num) (by norm_num)]
    norm_num
  have hraw : ∀ uv : ℝ, 0 < uv →
      raw_scores (fun _ _ _ => ⟨90, 45⟩) [⟨0, 0, 0, 0, uv, 0⟩] Seat.FR = uv := by
    intro uv huv
    show score_step (fun _ _ _ => ⟨90, 45⟩) (fun _ => 0) ⟨0, 0, 0, 0, uv, 0⟩ Seat.FR = uv
    simp only [score_step]
    rw [if_neg (by norm_num), if_neg (by norm_num [huv])]
    simp only [SEAT_FACING, hmod90, hdiff]
    simp [radians]
  have hscaled : ([⟨0, 0, 0, 0, 13 / 100000, 0⟩] : List Segment).map (scaleUv 2) =
      [⟨0, 0, 0, 0, 2 * (13 / 100000), 0⟩] := by
    simp [scaleUv]
  rw [hscaled]
  show roundTo 4 (raw_scores _ _ Seat.FR) ≠ 2 * roundTo 4 (raw_scores _ _ Seat.FR)
  rw [hraw _ (by norm_num), hraw _ (by norm_num)]
  unfold roundTo
  rw [show (2 * (13 / 100000) : ℝ) * 10 ^ 4 = 13 / 5 by norm_num,
    show ((13 / 100000 : ℝ)) * 10 ^ 4 = 13 / 10 by norm_num,
    round_eq, round_eq,
    show ⌊(13 / 5 : ℝ) + 1 / 2⌋ = 3 by rw [Int.floor_eq_iff]; norm_num,
    show ⌊(13 / 10 : ℝ) + 1 / 2⌋ = 1 by rw [Int.floor_eq_iff]; norm_num]
  norm_num

/-- C8 amended: linearity holds exactly for the accumulated per-seat
totals before the final 4-decimal rounding: multiplying every segment's
uv_index by a factor c ≥ 0 multiplies every seat's accumulated total by
exactly c, and likewise scaling every segment's cloud-cover complement
`1 - cloud_cover_pct/100` by c multiplies every accumulated total by c.
The returned scores are these totals rounded to 4 decimals, so for them
doubling holds only up to rounding. -/
theorem C8_raw_scorer_linearity (sun : ℝ → ℝ → ℝ → SolarPos)
    (segments : List Segment) (c : ℝ) (hc : 0 ≤ c) (seat : Seat) :
    raw_scores sun (segments.map (scaleUv c)) seat =
      c * raw_scores sun segments seat ∧
    raw_scores sun (segments.map (scaleCloudComplement c)) seat =
      c * raw_scores sun segments seat := by
  have h0 : (fun _ : Seat => (0 : ℝ)) = fun t => c * 0 := by funext t; ring
  constructor
  · show (segments.map (scaleUv c)).foldl (score_step sun) (fun _ => 0) seat = _
    rw [h0, foldl_score_scale sun c hc (scaleUv c)
      (fun seg => ⟨rfl, rfl, rfl, rfl, by simp only [scaleUv]; ring⟩) segments]
    rfl
  · show (segments.map (scaleCloudComplement c)).foldl (score_step sun) (fun _ => 0) seat = _
    rw [h0, foldl_score_scale sun c hc (scaleCloudComplement c)
      (fun seg => ⟨rfl, rfl, rfl, rfl, by simp only [scaleCloudComplement]; ring⟩) segments]
    rfl

/-- Witness for the amended C8: doubling the uv_index of a concrete
one-segment list doubles seat FR's accumulated total. -/
theorem C8_witness :
    raw_scores (fun _ _ _ => ⟨90, 45⟩)
        ([⟨0, 0, 0, 0, 5, 0⟩].map (scaleUv 2)) Seat.FR =
      2 * raw_scores (fun _ _ _ => ⟨90, 45⟩) [⟨0, 0, 0, 0, 5, 0⟩] Seat.FR ∧
    raw_scores (fun _ _ _ => ⟨90, 45⟩)
        ([⟨0, 0, 0, 0, 5, 0⟩].map (scaleCloudComplement 2)) Seat.FR =
      2 * raw_scores (fun _ _ _ => ⟨90, 45⟩) [⟨0, 0, 0, 0, 5, 0⟩] Seat.FR :=
  C8_raw_scorer_linearity _ _ _ (by norm_num) _

/-- C9: for every pair of coordinate points the bearing lies in [0, 360),
and for two identical points it is 0 (x = y = 0 and atan2 0 0 = 0). -/
theorem C9_bearing_range_and_degenerate (lat1 lng1 lat2 lng2 : ℝ) :
    0 ≤ bearing lat1 lng1 lat2 lng2 ∧ bearing lat1 lng1 lat2 lng2 < 360 ∧
    bearing lat1 lng1 lat1 lng1 = 0 := by
  refine ⟨pymod_nonneg _ _ (by norm_num), pymod_lt _ _ (by norm_num), ?_⟩
  show pymod (degrees (atan2
      (Real.sin (radians (lng1 - lng1)) * Real.cos (radians lat1))
      (Real.cos (radians lat1) * Real.sin (radians lat1) -
        Real.sin (radians lat1) * Real.cos (radians lat1) *
          Real.cos (radians (lng1 - lng1)))) + 360) 360 = 0
  have hx : Real.sin (radians (lng1 - lng1)) * Real.cos (radians lat1) = 0 := by
    simp [radians]
  have hy : Real.cos (radians lat1) * Real.sin (radians lat1) -
      Real.sin (radians lat1) * Real.cos (radians lat1) *
        Real.cos (radians (lng1 - lng1)) = 0 := by
    have : radians (lng1 - lng1) = 0 := by simp [radians]
    rw [this, Real.cos_zero]
    ring
  rw [hx, hy]
  have h00 : atan2 (0 : ℝ) 0 = 0 := by
    unfold atan2
    have hz : ((⟨0, 0⟩ : ℂ)) = 0 := by
      apply Complex.ext <;> simp
    rw [hz, Complex.arg_zero]
  rw [h00]
  have hdeg : degrees 0 = 0 := by simp [degrees]
  rw [hdeg, pymod_eq _ _ 1 (by norm_num) (by norm_num) (by norm_num)]
  norm_num

/-- C4: weather enrichment is total over lookup behaviour: for every
segment list and every outcome of the per-segment lookup it returns an
enriched list (of the input's length — no failure propagates); on lookup
success it sets `uv_index = max 0 (round (elevation / 9) to 2 decimals)`
and `cloud_cover_pct = 0`; on lookup failure it sets `cloud_cover_pct = 0`
and `uv_index` to the time-of-day fallback: 0 when the UTC hour is
outside [6, 18], else `6 * sin (π (hour - 6) / 12)` rounded to 2
decimals. -/
theorem C4_enrichment_totality_and_formulas (sunLookup : ℝ → ℝ → ℝ → Option SolarPos)
    (segments : List Segment) (seg : Segment) :
    (enrich_weather sunLookup segments).length = segments.length ∧
    (∀ solar : SolarPos, sunLookup seg.lat seg.lng seg.timestamp_utc = some solar →
      (enrich_segment sunLookup seg).uv_index = max 0 (roundTo 2 (solar.elevation / 9)) ∧
      (enrich_segment sunLookup seg).cloud_cover_pct = 0) ∧
    (sunLookup seg.lat seg.lng seg.timestamp_utc = none →
      (enrich_segment sunLookup seg).cloud_cover_pct = 0 ∧
      (¬ (6 ≤ ⌊seg.timestamp_utc / 3600⌋ % 24 ∧ ⌊seg.timestamp_utc / 3600⌋ % 24 ≤ 18) →
        (enrich_segment sunLookup seg).uv_index = 0) ∧
      ((6 ≤ ⌊seg.timestamp_utc / 3600⌋ % 24 ∧ ⌊seg.timestamp_utc / 3600⌋ % 24 ≤ 18) →
        (enrich_segment sunLookup seg).uv_index =
          roundTo 2 (6 * Real.sin
            (Real.pi * (((⌊seg.timestamp_utc / 3600⌋ % 24 : ℤ) : ℝ) - 6) / 12)))) := by
  refine ⟨by simp [enrich_weather], fun solar hs => ?_, fun hn => ⟨?_, ?_, ?_⟩⟩
  · simp [enrich_segment, hs]
  · simp [enrich_segment, hn]
  · intro hout
    simp [enrich_segment, hn, estimate_uv_from_time, if_neg hout]
  · intro hin
    simp only [enrich_segment, hn, estimate_uv_from_time, if_pos hin]
    have h6 : (6 : ℝ) ≤ ((⌊seg.timestamp_utc / 3600⌋ % 24 : ℤ) : ℝ) := by
      exact_mod_cast hin.1
    have h18 : ((⌊seg.timestamp_utc / 3600⌋ % 24 : ℤ) : ℝ) ≤ 18 := by
      exact_mod_cast hin.2
    have hsin : 0 ≤ Real.sin
        (Real.pi * (((⌊seg.timestamp_utc / 3600⌋ % 24 : ℤ) : ℝ) - 6) / 12) := by
      apply Real.sin_nonneg_of_nonneg_of_le_pi
      · have := Real.pi_pos
        nlinarith
      · have := Real.pi_pos
        nlinarith
    rw [max_eq_right (by nlinarith)]

/-- Witness for C4: a lookup that always fails, on a segment whose
timestamp is noon UTC (hour 12); and a lookup that always succeeds with
elevation 45. -/
theorem C4_witness :
    (enrich_weather (fun _ _ _ => none) [⟨0, 0, 43200, 0, 0, 0⟩]).length = 1 ∧
    ((enrich_segment (fun _ _ _ => some ⟨90, 45⟩) ⟨0, 0, 43200, 0, 0, 0⟩).uv_index =
        max 0 (roundTo 2 (45 / 9)) ∧
      (enrich_segment (fun _ _ _ => some ⟨90, 45⟩) ⟨0, 0, 43200, 0, 0, 0⟩).cloud_cover_pct = 0) ∧
    (enrich_segment (fun _ _ _ => none) ⟨0, 0, 43200, 0, 0, 0⟩).uv_index =
      roundTo 2 (6 * Real.sin
        (Real.pi * (((⌊(43200 : ℝ) / 3600⌋ % 24 : ℤ) : ℝ) - 6) / 12)) := by
  have h12 : ⌊(43200 : ℝ) / 3600⌋ % 24 = 12 := by norm_num
  refine ⟨(C4_enrichment_totality_and_formulas (fun _ _ _ => none)
      [⟨0, 0, 43200, 0, 0, 0⟩] ⟨0, 0, 43200, 0, 0, 0⟩).1,
    (C4_enrichment_totality_and_formulas (fun _ _ _ => some ⟨90, 45⟩)
      [⟨0, 0, 43200, 0, 0, 0⟩] ⟨0, 0, 43200, 0, 0, 0⟩).2.1 ⟨90, 45⟩ rfl,
    ((C4_enrichment_totality_and_formulas (fun _ _ _ => none)
      [⟨0, 0, 43200, 0, 0, 0⟩] ⟨0, 0, 43200, 0, 0, 0⟩).2.2 rfl).2.2 ?_⟩
  rw [h12]
  norm_num

/-- C10: weather enrichment preserves the segment sequence's shape: the
output has the same length and order, and each output segment's lat, lng,
timestamp_utc and heading_degrees equal the corresponding input
segment's; only uv_index and cloud_cover_pct are reassigned. -/
theorem C10_enrichment_preserves_shape (sunLookup : ℝ → ℝ → ℝ → Option SolarPos)
    (segments : List Segment) :
    (enrich_weather sunLookup segments).length = segments.length ∧
    (enrich_weather sunLookup segments).map Segment.lat = segments.map Segment.lat ∧
    (enrich_weather sunLookup segments).map Segment.lng = segments.map Segment.lng ∧
    (enrich_weather sunLookup segments).map Segment.timestamp_utc =
      segments.map Segment.timestamp_utc ∧
    (enrich_weather sunLookup segments).map Segment.heading_degrees =
      segments.map Segment.heading_degrees := by
  refine ⟨by simp [enrich_weather], ?_, ?_, ?_, ?_⟩ <;>
    · simp only [enrich_weather, List.map_map]
      apply List.map_congr_left
      intro s _
      obtain ⟨h1, h2, h3, h4⟩ := enrich_segment_preserves sunLookup s
      simp [h1, h2, h3, h4]

/-- C7: the confidence classifier equals the specification's three-tier
top-down classification for every enriched segment list and score map:
low when no segment has uv_index > 0; else high when
sun_fraction ≥ 0.7 ∧ avg_uv ≥ 4.0 ∧ relative_spread ≥ 0.3; else moderate
when sun_fraction ≥ 0.3 ∧ avg_uv ≥ 1.5 ∧ relative_spread ≥ 0.1; else
low; the code's separate empty-input check is subsumed by the no-sunny
check. -/
theorem C7_confidence_tiers (enriched : List Segment) (scores : Seat → ℝ) :
    compute_confidence enriched scores = confidence_spec enriched scores := by
  cases enriched with
  | nil => rfl
  | cons a l =>
    simp only [compute_confidence, confidence_spec, List.isEmpty_cons,
      Bool.false_eq_true, if_false]

/-- C5 counterexample: the claim requires authorization/quota provider
statuses to be classified apart from client-input statuses and mapped to
a 5xx-equivalent error; but the code raises the same `ValueError` for
every non-OK Directions status, and `recommend` maps every `ValueError`
to HTTP 400.  Concretely, the authorization failure status
REQUEST_DENIED is surfaced as 400, not as any 5xx. -/
theorem C5_counterexample :
    get_route_segments 0 (.success ⟨"REQUEST_DENIED", none, []⟩) =
      .error (.valueError "Directions API error: REQUEST_DENIED — no details") ∧
    error_to_http_status
      (.valueError "Directions API error: REQUEST_DENIED — no details") = 400 ∧
    ¬ (500 ≤ error_to_http_status
      (.valueError "Directions API error: REQUEST_DENIED — no details")) := by
  refine ⟨?_, rfl, by norm_num [error_to_http_status]⟩
  rfl

/-- C5 amended: every non-OK Directions status (client-input and
service/authorization ones alike) makes `get_route_segments` fail with a
single `ValueError` classification carrying the status and message, which
the caller maps to HTTP 400; only transport-level HTTP failures get the
distinct `httpx.HTTPStatusError` classification, mapped to HTTP 502. -/
theorem C5_amended_error_classification (departure_ts : ℝ) (data : DirectionsData)
    (h : data.status ≠ "OK") :
    get_route_segments departure_ts (.success data) =
      .error (.valueError ("Directions API error: " ++ data.status ++ " — " ++
        data.error_message.getD "no details")) ∧
    (∀ msg, error_to_http_status (.valueError msg) = 400) ∧
    (∀ code, error_to_http_status (.httpStatusError code) = 502) := by
  refine ⟨?_, fun _ => rfl, fun _ => rfl⟩
  simp only [get_route_segments, if_neg h]

/-- Witness for the amended C5: the zero-results status. -/
theorem C5_witness :
    get_route_segments 0 (.success ⟨"ZERO_RESULTS", none, []⟩) =
      .error (.valueError ("Directions API error: " ++ "ZERO_RESULTS" ++ " — " ++
        (none : Option String).getD "no details")) ∧
    (∀ msg, error_to_http_status (.valueError msg) = 400) ∧
    (∀ code, error_to_http_status (.httpStatusError code) = 502) :=
  C5_amended_error_classification 0 ⟨"ZERO_RESULTS", none, []⟩ (by decide)

/-- C6: for every step of duration > 0 whose polyline decodes to N ≥ 2
points, the segmenter emits N − 1 segments; the i-th has timestamp
exactly departure + elapsed + i · (duration / (N − 1)), where elapsed is
the time accumulated from earlier steps (threaded by `process_steps`);
consecutive timestamps hence strictly increase, spaced by
duration / (N − 1). -/
theorem C6_segmenter_timestamps (departure_ts elapsed : ℝ) (step : StepData)
    (rawPts : List (ℤ × ℤ))
    (hdec : decode_polyline step.polyline = some rawPts)
    (hN : 2 ≤ rawPts.length) (hdur : 0 < step.duration) :
    ∃ (segs : List Segment) (elapsedOut : ℝ),
      step_segments departure_ts elapsed step = some (segs, elapsedOut) ∧
      segs.length = rawPts.length - 1 ∧
      (∀ (i : ℕ) (hi : i < segs.length),
        (segs.get ⟨i, hi⟩).timestamp_utc =
          departure_ts + elapsed +
            i * (step.duration / ((rawPts.length : ℝ) - 1))) ∧
      (∀ (i j : ℕ) (hi : i < segs.length) (hj : j < segs.length), i < j →
        (segs.get ⟨i, hi⟩).timestamp_utc < (segs.get ⟨j, hj⟩).timestamp_utc) := by
  simp only [step_segments, hdec, List.length_map]
  rw [if_neg (show ¬ rawPts.length < 2 by omega),
    step_foldl_emit departure_ts (step.duration / ((rawPts.length : ℝ) - 1)) _ 0 [] elapsed]
  refine ⟨_, _, rfl, ?_, ?_, ?_⟩
  · simp only [List.nil_append, List.length_map, List.enumFrom_length,
      List.length_zip, List.length_tail]
    omega
  · intro i hi
    simp only [List.nil_append, List.get_eq_getElem, List.getElem_map,
      List.getElem_enumFrom, make_segment]
    push_cast
    ring
  · intro i j hi hj hij
    simp only [List.nil_append, List.get_eq_getElem, List.getElem_map,
      List.getElem_enumFrom, make_segment]
    have hpos : 0 < step.duration / ((rawPts.length : ℝ) - 1) := by
      apply div_pos hdur
      have : (2 : ℝ) ≤ (rawPts.length : ℝ) := by exact_mod_cast hN
      linarith
    have hij2 : (i : ℝ) < (j : ℝ) := by exact_mod_cast hij
    push_cast
    nlinarith

/-- Witness for C6: a 10-second step whose polyline "??AA" decodes to the
two points (0, 0) and (0.00001, 0.00001). -/
theorem C6_witness :
    ∃ (segs : List Segment) (elapsedOut : ℝ),
      step_segments 0 0 ⟨10, "??AA", ⟨0, 0⟩, ⟨1, 1⟩⟩ = some (segs, elapsedOut) ∧
      segs.length = ([(0, 0), (1, 1)] : List (ℤ × ℤ)).length - 1 ∧
      (∀ (i : ℕ) (hi : i < segs.length),
        (segs.get ⟨i, hi⟩).timestamp_utc =
          0 + 0 + i * ((10 : ℝ) /
            (((([(0, 0), (1, 1)] : List (ℤ × ℤ)).length : ℕ) : ℝ) - 1))) ∧
      (∀ (i j : ℕ) (hi : i < segs.length) (hj : j < segs.length), i < j →
        (segs.get ⟨i, hi⟩).timestamp_utc < (segs.get ⟨j, hj⟩).timestamp_utc) :=
  C6_segmenter_timestamps 0 0 ⟨10, "??AA", ⟨0, 0⟩, ⟨1, 1⟩⟩ [(0, 0), (1, 1)]
    (by decide) (by decide) (by norm_num)

end SunSeat

